import Mathlib

/-!
Shallow embedding of the PDF-to-Word converter (`src/index.tsx`).

The app keeps React state (`file`, `isLoading`, `loadingMessage`, `error`,
`result`), encodes the selected PDF once into a base64 attachment, drives a
three-stage generative pipeline (`handleConvert`), and derives the download
file name (`handleDownload`, line 180).  External effects are modelled as
explicit parameters: the encoder (`FileReader`-based `fileToGenerativePart`,
which can throw) as `encode : SourceFile → Except String Attachment`, and the
generative call (`ai.models.generateContent`, whose `.text` may be absent and
whose transport may throw) as `gen : GenRequest → Except String (Option
String)`.  Runs also return the trace of external events, so that statements
about which stages were invoked and with which payloads are expressible.
-/

/-- A user-supplied file: display name, MIME type (`File.type` in the DOM),
and raw bytes. -/
structure SourceFile where
  name : String
  type : String
  bytes : List Nat
deriving DecidableEq, Repr

/-- The `inlineData` attachment sent to the model: base64 payload plus MIME
type (`fileToGenerativePart`, lines 16-25). -/
structure Attachment where
  data : String
  mimeType : String
deriving DecidableEq, Repr

/-- One element of a `contents.parts` array: either instruction text or the
inline binary attachment. -/
inductive GenPart where
  | text : String → GenPart
  | inlineData : Attachment → GenPart
deriving DecidableEq, Repr

/-- One `generateContent` invocation payload: model id plus ordered parts. -/
structure GenRequest where
  model : String
  parts : List GenPart
deriving DecidableEq, Repr

/-- The component's React state (lines 9-14; `isDragging` is pure UI and
carries no claim, so it is omitted). -/
structure AppState where
  file : Option SourceFile
  isLoading : Bool
  loadingMessage : String
  error : Option String
  result : Option String
deriving DecidableEq, Repr

/-- An externally observable event of one conversion run: the encoder was
invoked on the file, or the generative model was invoked with a payload. -/
inductive Event where
  | encodeEv : SourceFile → Event
  | genEv : GenRequest → Event
deriving DecidableEq, Repr

/-- Standard base64 alphabet. -/
def base64Chars : String :=
  "ABCDEFGHIJKLMNOPQRSTUVWXYZabcdefghijklmnopqrstuvwxyz0123456789+/"

/-- The base64 digit for a 6-bit value. -/
def base64Char (n : Nat) : Char := base64Chars.data.getD n 'A'

/-- Base64-encode a byte list, three bytes at a time, with `=` padding. -/
def base64Chunks : List Nat → List Char
  | b1 :: b2 :: b3 :: rest =>
    let n := b1 % 256 * 65536 + b2 % 256 * 256 + b3 % 256
    base64Char (n / 262144) :: base64Char (n / 4096 % 64) ::
      base64Char (n / 64 % 64) :: base64Char (n % 64) :: base64Chunks rest
  | [b1, b2] =>
    let n := b1 % 256 * 65536 + b2 % 256 * 256
    [base64Char (n / 262144), base64Char (n / 4096 % 64),
      base64Char (n / 64 % 64), '=']
  | [b1] =>
    let n := b1 % 256 * 65536
    [base64Char (n / 262144), base64Char (n / 4096 % 64), '=', '=']
  | [] => []

/-- Base64 encoding of a byte list as a string. -/
def base64Encode (bs : List Nat) : String := String.mk (base64Chunks bs)

/-- `fileToGenerativePart` (lines 16-25): read the file as a data URL, keep
the base64 payload after the comma, pair it with the file's MIME type. -/
def fileToGenerativePart (f : SourceFile) : Attachment :=
  { data := base64Encode f.bytes, mimeType := f.type }

/-- `handleFileChange` (lines 27-36): accept only `application/pdf`; on
acceptance store the file and clear `error` and `result`; otherwise set the
rejection message and unset the file. -/
def handleFileChange (selectedFile : Option SourceFile) (s : AppState) :
    AppState :=
  match selectedFile with
  | some f =>
    if f.type = "application/pdf" then
      { s with file := some f, error := none, result := none }
    else
      { s with error := some "Please select a valid PDF file.", file := none }
  | none =>
    { s with error := some "Please select a valid PDF file.", file := none }

/-- The stage-1 prompt (lines 53-64). -/
def promptStep1 : String :=
  "\nYou are an expert document transcriber specializing in converting complex, bilingual (English and Bengali) PDF documents into flawless GitHub Flavored Markdown.\n\nYour task is to perform a high-fidelity OCR and conversion of the provided PDF. The final output must be a single, clean Markdown document that is a perfect digital representation of the original.\n\nPay meticulous attention to the following details:\n1.  **Bilingual Accuracy:** Transcribe all English and Bengali text with extreme precision. Ensure all characters, including compound characters (যুক্তাক্ষর) in Bengali, are rendered correctly.\n2.  **Structural Integrity:** Replicate the heading hierarchy, paragraphs, and emphasis (bold, italic).\n3.  **Complex Elements:** Reconstruct all tables using GitHub Flavored Markdown.\n4.  **List Integrity:** Accurately replicate all ordered (numbered), unordered (bulleted), and nested lists. Preserve the exact indentation and nesting levels as seen in the original document.\n5.  **Mathematical Equations & Special Symbols:** Transcribe all mathematical and scientific notations directly into their corresponding standard Unicode characters (e.g., √x instead of LaTeX).\n6.  **Final Output:** The output MUST be **only** the final, clean Markdown text. Do NOT include any commentary or explanations."

/-- The stage-2 prompt (lines 78-90). -/
def promptStep2 : String :=
  "\nYou are a meticulous document proofreader and quality control specialist. You have been given an original PDF document and a Markdown text that was generated from it via OCR.\n\nYour task is to **compare the provided Markdown text against the original PDF** and correct any and all errors.\n\n**Instructions:**\n1.  **Cross-Reference:** Carefully examine the PDF and the Markdown side-by-side.\n2.  **Correct Errors:** Fix any mistakes in the Markdown text. This includes:\n    *   **OCR Errors:** Misspelled words, incorrect characters, especially in complex Bengali যুক্তাক্ষর.\n    *   **Formatting Errors:** Incorrect heading levels or broken tables. Pay special attention to **list formatting**. Ensure that ordered (numbered), unordered (bulleted), and nested lists are perfectly structured with correct indentation. Fix any improperly formatted lists or missed bold/italic text.\n    *   **Structural Errors:** Missing paragraphs, incorrect line breaks.\n    *   **Symbol Errors:** Ensure all mathematical and special symbols are correct Unicode characters as seen in the PDF.\n3.  **Output:** Your output MUST be **only** the fully corrected, clean Markdown text. Do not add any commentary, notes, or explanations."

/-- The stage-3 prompt (lines 108-116). -/
def promptStep3 : String :=
  "\nYou are a final quality assurance specialist performing the last check on a document conversion. You have been given an original PDF and a corrected Markdown version.\n\nYour task is to conduct a **final, exhaustive review** to ensure the Markdown is a perfect, flawless representation of the PDF.\n\n**Instructions:**\n1.  **Final Scrutiny:** This is the last chance to catch any errors. Pay extreme attention to the smallest details.\n2.  **Perfection Check:** Verify headings, tables, bilingual text (English and Bengali), and all special symbols one last time. Give special scrutiny to **all lists**. Ensure that all bullet points, numbered items, and nested sub-lists are perfectly formatted and indented, exactly mirroring the PDF's structure.\n3.  **Clean Output:** Your output MUST be **only** the final, polished Markdown text. Do not include any explanations or introductory phrases. The goal is a perfect, ready-to-use document."

/-- The tag prefixed to stage 1's output inside stage 2's payload (line 97). -/
def verifyTag : String := "\n\n--- OCR-GENERATED MARKDOWN TO BE VERIFIED ---\n\n"

/-- The tag prefixed to stage 2's output inside stage 3's payload (line 123). -/
def polishTag : String := "\n\n--- CORRECTED MARKDOWN FOR FINAL POLISH ---\n\n"

/-- The step-1 throw message (line 73). -/
def step1Msg : String := "Step 1 (Initial Conversion) failed or returned empty."

/-- The step-2 throw message (line 103). -/
def step2Msg : String := "Step 2 (Verification) failed or returned empty."

/-- The step-3 throw message (line 129). -/
def step3Msg : String := "Step 3 (Final Polish) failed or returned empty."

/-- Stage 1's payload (lines 66-69): the fixed prompt and the attachment. -/
def mkReq1 (filePart : Attachment) : GenRequest :=
  { model := "gemini-2.5-flash",
    parts := [GenPart.text promptStep1, GenPart.inlineData filePart] }

/-- Stage 2's payload (lines 92-99): prompt, attachment, and stage 1's
output under `verifyTag`. -/
def mkReq2 (filePart : Attachment) (markdownStep1 : String) : GenRequest :=
  { model := "gemini-2.5-flash",
    parts := [GenPart.text promptStep2, GenPart.inlineData filePart,
      GenPart.text (verifyTag ++ markdownStep1)] }

/-- Stage 3's payload (lines 118-125): prompt, attachment, and stage 2's
output under `polishTag`. -/
def mkReq3 (filePart : Attachment) (markdownStep2 : String) : GenRequest :=
  { model := "gemini-2.5-flash",
    parts := [GenPart.text promptStep3, GenPart.inlineData filePart,
      GenPart.text (polishTag ++ markdownStep2)] }

/-- The three-stage body of the `try` block after encoding (lines 51-132):
each stage calls the model; an absent (`none`) or empty response text throws
the stage's message (JavaScript `if (!text)` is falsy on both); a transport
error thrown by the call itself propagates as is.  Returns the outcome and
the list of payloads actually sent. -/
def runPipeline (gen : GenRequest → Except String (Option String))
    (filePart : Attachment) : Except String String × List GenRequest :=
  let req1 := mkReq1 filePart
  match gen req1 with
  | Except.error e => (Except.error e, [req1])
  | Except.ok r1 =>
    match r1 with
    | none => (Except.error step1Msg, [req1])
    | some markdownStep1 =>
      if markdownStep1 = "" then (Except.error step1Msg, [req1])
      else
        let req2 := mkReq2 filePart markdownStep1
        match gen req2 with
        | Except.error e => (Except.error e, [req1, req2])
        | Except.ok r2 =>
          match r2 with
          | none => (Except.error step2Msg, [req1, req2])
          | some markdownStep2 =>
            if markdownStep2 = "" then (Except.error step2Msg, [req1, req2])
            else
              let req3 := mkReq3 filePart markdownStep2
              match gen req3 with
              | Except.error e => (Except.error e, [req1, req2, req3])
              | Except.ok r3 =>
                match r3 with
                | none => (Except.error step3Msg, [req1, req2, req3])
                | some finalResult =>
                  if finalResult = "" then
                    (Except.error step3Msg, [req1, req2, req3])
                  else (Except.ok finalResult, [req1, req2, req3])

/-- The whole `try` block (lines 47-132): encode the file, then run the
pipeline; an encoder throw propagates before any model call. -/
def convertBody (encode : SourceFile → Except String Attachment)
    (gen : GenRequest → Except String (Option String)) (f : SourceFile) :
    Except String String × List GenRequest :=
  match encode f with
  | Except.error e => (Except.error e, [])
  | Except.ok filePart => runPipeline gen filePart

/-- `handleConvert` (lines 38-140): bail out with a message when no file is
selected; otherwise set `isLoading` and clear `error`/`result`, run the
body, store the final text on success or `"Error processing file: " ++ msg`
on any caught failure, and in `finally` clear `isLoading` and
`loadingMessage`.  Also returns the run's event trace: one encoder
invocation followed by the model calls. -/
def handleConvert (encode : SourceFile → Except String Attachment)
    (gen : GenRequest → Except String (Option String)) (s : AppState) :
    AppState × List Event :=
  match s.file with
  | none => ({ s with error := some "Please select a file first." }, [])
  | some f =>
    let s1 : AppState := { s with isLoading := true, error := none, result := none }
    let body := convertBody encode gen f
    let s2 : AppState :=
      match body.1 with
      | Except.ok finalResult => { s1 with result := some finalResult }
      | Except.error e =>
        { s1 with error := some ("Error processing file: " ++ e) }
    ({ s2 with isLoading := false, loadingMessage := "" },
      Event.encodeEv f :: body.2.map Event.genEv)

/-- Replace the first occurrence of `pat` in a character list by `rep`,
as JavaScript `String.prototype.replace` does for a non-empty string
pattern: scan left to right, rewrite the first match, keep the rest. -/
def replaceFirstChars (pat rep : List Char) : List Char → List Char
  | [] => []
  | c :: cs =>
    if pat.isPrefixOf (c :: cs) then rep ++ (c :: cs).drop pat.length
    else c :: replaceFirstChars pat rep cs

/-- JavaScript `s.replace(pat, rep)` for a non-empty string pattern. -/
def jsReplace (s pat rep : String) : String :=
  String.mk (replaceFirstChars pat.data rep.data s.data)

/-- `handleDownload`'s file-name derivation (line 180):
`file?.name.replace('.pdf', '.doc') || 'document.doc'` — the first `.pdf`
substring becomes `.doc`, and the `||` default applies only when the chain
is falsy (no file, or the replaced name is the empty string). -/
def deriveFileName (file : Option SourceFile) : String :=
  match file with
  | none => "document.doc"
  | some f =>
    let n := jsReplace f.name ".pdf" ".doc"
    if n = "" then "document.doc" else n

/-- The model payloads in an event trace, in order. -/
def genCalls (tr : List Event) : List GenRequest :=
  tr.filterMap fun e =>
    match e with
    | Event.genEv q => some q
    | Event.encodeEv _ => none

/-- The encoder invocations in an event trace, in order. -/
def encodeEvents (tr : List Event) : List SourceFile :=
  tr.filterMap fun e =>
    match e with
    | Event.encodeEv f => some f
    | Event.genEv _ => none

/-- The attachments carried by one payload, in order. -/
def attachmentsOf (q : GenRequest) : List Attachment :=
  q.parts.filterMap fun p =>
    match p with
    | GenPart.inlineData a => some a
    | GenPart.text _ => none

/-- A sample accepted PDF file, used to instantiate proved theorems. -/
def pdfFile : SourceFile :=
  { name := "report.pdf", type := "application/pdf", bytes := [37, 80, 68, 70] }

/-- A sample rejected non-PDF file. -/
def txtFile : SourceFile :=
  { name := "notes.txt", type := "text/plain", bytes := [1, 2] }

/-- A sample file with an empty display name. -/
def emptyNameFile : SourceFile :=
  { name := "", type := "application/pdf", bytes := [] }

/-- A sample file whose name contains `.pdf` twice. -/
def doublePdfFile : SourceFile :=
  { name := "a.pdf.pdf", type := "application/pdf", bytes := [] }

/-- The initial idle state. -/
def st0 : AppState :=
  { file := none, isLoading := false, loadingMessage := "",
    error := none, result := none }

/-- The idle state with the sample PDF selected. -/
def stWithFile : AppState := { st0 with file := some pdfFile }

/-- The sample attachment: the sample PDF, encoded. -/
def attach0 : Attachment := fileToGenerativePart pdfFile

/-- The always-succeeding encoder: the awaited `fileToGenerativePart` call
completing normally. -/
def encodeOk : SourceFile → Except String Attachment :=
  fun f => Except.ok (fileToGenerativePart f)

/-- A model oracle answering every request with the same fixed text. -/
def genConst (t : String) : GenRequest → Except String (Option String) :=
  fun _ => Except.ok (some t)

/-- A model oracle answering every request with empty text. -/
def genEmpty : GenRequest → Except String (Option String) :=
  fun _ => Except.ok (some "")

/-- A model oracle that answers stage 1 (a two-part payload) with text and
every three-part payload with empty text, so the run fails at step 2. -/
def genFailAt2 : GenRequest → Except String (Option String) :=
  fun q =>
    if q.parts.length ≤ 2 then Except.ok (some "M1")
    else Except.ok (some "")

/-- A model oracle that answers stages 1 and 2 with text and stage 3 (whose
last part carries the stage-2 output under `polishTag`) with empty text. -/
def genFailAt3 : GenRequest → Except String (Option String) :=
  fun q =>
    if q.parts.length ≤ 2 then Except.ok (some "M1")
    else if q.parts.getLast? = some (GenPart.text (verifyTag ++ "M1")) then
      Except.ok (some "M2")
    else Except.ok (some "")

/-- A model oracle answering the three stages with three distinct texts,
telling the stages apart by payload shape. -/
def genStages : GenRequest → Except String (Option String) :=
  fun q =>
    if q.parts.length ≤ 2 then Except.ok (some "ONE")
    else if q.parts.getLast? = some (GenPart.text (verifyTag ++ "ONE")) then
      Except.ok (some "TWO")
    else Except.ok (some "THREE")

/-- An encoder that throws, modelling a failed file read. -/
def encodeFail : SourceFile → Except String Attachment :=
  fun _ => Except.error "read failed"

/-- A model oracle whose transport throws on every call. -/
def genThrow : GenRequest → Except String (Option String) :=
  fun _ => Except.error "network down"

/-- Model calls in a trace built only from `genEv` events. -/
theorem genCalls_map_gen (l : List GenRequest) :
    genCalls (l.map Event.genEv) = l := by
  induction l with
  | nil => rfl
  | cons q l ih =>
    unfold genCalls at ih ⊢
    simp [List.filterMap_cons, ih]

/-- A leading encoder event does not contribute a model call. -/
theorem genCalls_cons_encode (f : SourceFile) (tr : List Event) :
    genCalls (Event.encodeEv f :: tr) = genCalls tr := by
  simp [genCalls, List.filterMap_cons]

/-- A trace built only from `genEv` events has no encoder invocations. -/
theorem encodeEvents_map_gen (l : List GenRequest) :
    encodeEvents (l.map Event.genEv) = [] := by
  induction l with
  | nil => rfl
  | cons q l ih =>
    unfold encodeEvents at ih ⊢
    simp [List.filterMap_cons, ih]

/-- If the stage-1 call throws, the pipeline stops after one call. -/
theorem runPipeline_stage1_throw (gen : GenRequest → Except String (Option String))
    (fp : Attachment) (e : String) (h : gen (mkReq1 fp) = Except.error e) :
    runPipeline gen fp = (Except.error e, [mkReq1 fp]) := by
  simp [runPipeline, h]

/-- If stage 1 answers with absent or empty text, the pipeline fails with
the step-1 message after one call. -/
theorem runPipeline_stage1_empty (gen : GenRequest → Except String (Option String))
    (fp : Attachment)
    (h : gen (mkReq1 fp) = Except.ok none ∨ gen (mkReq1 fp) = Except.ok (some "")) :
    runPipeline gen fp = (Except.error step1Msg, [mkReq1 fp]) := by
  rcases h with h | h <;> simp [runPipeline, h]

/-- If stage 1 yields text but the stage-2 call throws, the pipeline stops
after two calls. -/
theorem runPipeline_stage2_throw (gen : GenRequest → Except String (Option String))
    (fp : Attachment) (m1 e : String)
    (h1 : gen (mkReq1 fp) = Except.ok (some m1)) (hm1 : m1 ≠ "")
    (h2 : gen (mkReq2 fp m1) = Except.error e) :
    runPipeline gen fp = (Except.error e, [mkReq1 fp, mkReq2 fp m1]) := by
  simp [runPipeline, h1, hm1, h2]

/-- If stage 2 answers with absent or empty text, the pipeline fails with
the step-2 message after two calls. -/
theorem runPipeline_stage2_empty (gen : GenRequest → Except String (Option String))
    (fp : Attachment) (m1 : String)
    (h1 : gen (mkReq1 fp) = Except.ok (some m1)) (hm1 : m1 ≠ "")
    (h2 : gen (mkReq2 fp m1) = Except.ok none ∨
      gen (mkReq2 fp m1) = Except.ok (some "")) :
    runPipeline gen fp = (Except.error step2Msg, [mkReq1 fp, mkReq2 fp m1]) := by
  rcases h2 with h2 | h2 <;> simp [runPipeline, h1, hm1, h2]

/-- If stages 1 and 2 yield text but the stage-3 call throws, the pipeline
stops after three calls. -/
theorem runPipeline_stage3_throw (gen : GenRequest → Except String (Option String))
    (fp : Attachment) (m1 m2 e : String)
    (h1 : gen (mkReq1 fp) = Except.ok (some m1)) (hm1 : m1 ≠ "")
    (h2 : gen (mkReq2 fp m1) = Except.ok (some m2)) (hm2 : m2 ≠ "")
    (h3 : gen (mkReq3 fp m2) = Except.error e) :
    runPipeline gen fp =
      (Except.error e, [mkReq1 fp, mkReq2 fp m1, mkReq3 fp m2]) := by
  simp [runPipeline, h1, hm1, h2, hm2, h3]

/-- If stage 3 answers with absent or empty text, the pipeline fails with
the step-3 message after three calls. -/
theorem runPipeline_stage3_empty (gen : GenRequest → Except String (Option String))
    (fp : Attachment) (m1 m2 : String)
    (h1 : gen (mkReq1 fp) = Except.ok (some m1)) (hm1 : m1 ≠ "")
    (h2 : gen (mkReq2 fp m1) = Except.ok (some m2)) (hm2 : m2 ≠ "")
    (h3 : gen (mkReq3 fp m2) = Except.ok none ∨
      gen (mkReq3 fp m2) = Except.ok (some "")) :
    runPipeline gen fp =
      (Except.error step3Msg, [mkReq1 fp, mkReq2 fp m1, mkReq3 fp m2]) := by
  rcases h3 with h3 | h3 <;> simp [runPipeline, h1, hm1, h2, hm2, h3]

/-- If all three stages yield non-empty text, the pipeline succeeds with
stage 3's text after three calls. -/
theorem runPipeline_success (gen : GenRequest → Except String (Option String))
    (fp : Attachment) (m1 m2 r : String)
    (h1 : gen (mkReq1 fp) = Except.ok (some m1)) (hm1 : m1 ≠ "")
    (h2 : gen (mkReq2 fp m1) = Except.ok (some m2)) (hm2 : m2 ≠ "")
    (h3 : gen (mkReq3 fp m2) = Except.ok (some r)) (hr : r ≠ "") :
    runPipeline gen fp =
      (Except.ok r, [mkReq1 fp, mkReq2 fp m1, mkReq3 fp m2]) := by
  simp [runPipeline, h1, hm1, h2, hm2, h3, hr]

/-- A successful pipeline outcome pins down all three stage responses. -/
theorem runPipeline_ok_elim (gen : GenRequest → Except String (Option String))
    (fp : Attachment) (r : String)
    (h : (runPipeline gen fp).1 = Except.ok r) :
    ∃ m1 m2, gen (mkReq1 fp) = Except.ok (some m1) ∧ m1 ≠ "" ∧
      gen (mkReq2 fp m1) = Except.ok (some m2) ∧ m2 ≠ "" ∧
      gen (mkReq3 fp m2) = Except.ok (some r) ∧ r ≠ "" := by
  cases h1 : gen (mkReq1 fp) with
  | error e => simp [runPipeline, h1] at h
  | ok r1 =>
    cases r1 with
    | none => simp [runPipeline, h1] at h
    | some m1 =>
      by_cases hm1 : m1 = ""
      · simp [runPipeline, h1, hm1] at h
      · cases h2 : gen (mkReq2 fp m1) with
        | error e => simp [runPipeline, h1, hm1, h2] at h
        | ok r2 =>
          cases r2 with
          | none => simp [runPipeline, h1, hm1, h2] at h
          | some m2 =>
            by_cases hm2 : m2 = ""
            · simp [runPipeline, h1, hm1, h2, hm2] at h
            · cases h3 : gen (mkReq3 fp m2) with
              | error e => simp [runPipeline, h1, hm1, h2, hm2, h3] at h
              | ok r3 =>
                cases r3 with
                | none => simp [runPipeline, h1, hm1, h2, hm2, h3] at h
                | some r0 =>
                  by_cases hr0 : r0 = ""
                  · simp [runPipeline, h1, hm1, h2, hm2, h3, hr0] at h
                  · have hr : r0 = r := by
                      simpa [runPipeline, h1, hm1, h2, hm2, h3, hr0] using h
                    subst hr
                    exact ⟨m1, m2, rfl, hm1, h2, hm2, h3, hr0⟩

/-- The trace of any run is one of the three stage prefixes, with each
later payload built from the previous stage's text. -/
theorem runPipeline_trace_shape (gen : GenRequest → Except String (Option String))
    (fp : Attachment) :
    (runPipeline gen fp).2 = [mkReq1 fp]
    ∨ (∃ m1, gen (mkReq1 fp) = Except.ok (some m1) ∧ m1 ≠ "" ∧
        (runPipeline gen fp).2 = [mkReq1 fp, mkReq2 fp m1])
    ∨ (∃ m1 m2, gen (mkReq1 fp) = Except.ok (some m1) ∧ m1 ≠ "" ∧
        gen (mkReq2 fp m1) = Except.ok (some m2) ∧ m2 ≠ "" ∧
        (runPipeline gen fp).2 = [mkReq1 fp, mkReq2 fp m1, mkReq3 fp m2]) := by
  cases h1 : gen (mkReq1 fp) with
  | error e => exact Or.inl (by simp [runPipeline, h1])
  | ok r1 =>
    cases r1 with
    | none => exact Or.inl (by simp [runPipeline, h1])
    | some m1 =>
      by_cases hm1 : m1 = ""
      · exact Or.inl (by simp [runPipeline, h1, hm1])
      · cases h2 : gen (mkReq2 fp m1) with
        | error e =>
          exact Or.inr (Or.inl ⟨m1, rfl, hm1, by simp [runPipeline, h1, hm1, h2]⟩)
        | ok r2 =>
          cases r2 with
          | none =>
            exact Or.inr (Or.inl ⟨m1, rfl, hm1, by simp [runPipeline, h1, hm1, h2]⟩)
          | some m2 =>
            by_cases hm2 : m2 = ""
            · exact Or.inr (Or.inl ⟨m1, rfl, hm1, by simp [runPipeline, h1, hm1, h2, hm2]⟩)
            · refine Or.inr (Or.inr ⟨m1, m2, rfl, hm1, h2, hm2, ?_⟩)
              cases h3 : gen (mkReq3 fp m2) with
              | error e => simp [runPipeline, h1, hm1, h2, hm2, h3]
              | ok r3 =>
                cases r3 with
                | none => simp [runPipeline, h1, hm1, h2, hm2, h3]
                | some r0 =>
                  by_cases hr0 : r0 = ""
                  · simp [runPipeline, h1, hm1, h2, hm2, h3, hr0]
                  · simp [runPipeline, h1, hm1, h2, hm2, h3, hr0]

/-- If the pattern matches at no position of `s`, replacement is the
identity. -/
theorem replaceFirstChars_no_match (pat rep : List Char) :
    ∀ s : List Char,
      (∀ k, k < s.length → pat.isPrefixOf (s.drop k) = false) →
      replaceFirstChars pat rep s = s := by
  intro s
  induction s with
  | nil => intro _; rfl
  | cons c cs ih =>
    intro h
    have h0 : pat.isPrefixOf (c :: cs) = false := by
      simpa using h 0 (by simp)
    have hrest : ∀ k, k < cs.length → pat.isPrefixOf (cs.drop k) = false := by
      intro k hk
      simpa [List.drop_succ_cons] using h (k + 1) (by simpa using Nat.succ_lt_succ hk)
    simp [replaceFirstChars, h0, ih hrest]

/-- If the pattern's first match in `a ++ pat ++ b` is exactly at the end of
`a`, replacement rewrites that occurrence and keeps the rest. -/
theorem replaceFirstChars_match (pat rep : List Char) (hpat : pat ≠ []) :
    ∀ a b : List Char,
      (∀ k, k < a.length → pat.isPrefixOf ((a ++ pat ++ b).drop k) = false) →
      replaceFirstChars pat rep (a ++ pat ++ b) = a ++ rep ++ b := by
  intro a
  induction a with
  | nil =>
    intro b _
    simp only [List.nil_append]
    cases hp : pat with
    | nil => exact absurd hp hpat
    | cons p ps =>
      have hpre : (p :: ps) <+: p :: (ps ++ b) := ⟨b, by simp⟩
      have hdrop : (p :: (ps ++ b)).drop (p :: ps).length = b := by
        simp only [List.length_cons, List.drop_succ_cons]
        exact List.drop_left ps b
      simp [replaceFirstChars, hpre, hdrop]
  | cons c a' ih =>
    intro b h
    have h0 : pat.isPrefixOf (c :: (a' ++ (pat ++ b))) = false := by
      simpa [List.cons_append, List.append_assoc] using h 0 (by simp)
    have h0p : ¬ pat <+: c :: (a' ++ (pat ++ b)) := by
      rw [← List.isPrefixOf_iff_prefix]
      simp [h0]
    have hrest : ∀ k, k < a'.length →
        pat.isPrefixOf ((a' ++ pat ++ b).drop k) = false := by
      intro k hk
      have := h (k + 1) (by simpa using Nat.succ_lt_succ hk)
      simpa [List.cons_append, List.drop_succ_cons] using this
    have ihb := ih b hrest
    simp only [List.cons_append, List.append_assoc] at ihb ⊢
    simp [replaceFirstChars, h0p, ihb]

/-- C6 counterexample: `deriveFileName` does not fall back to
`"document.doc"` on a name without a trailing `.pdf` extension — it returns
`"notes.txt"` unchanged — and on `"a.pdf.pdf"` it rewrites the first
occurrence, not the trailing extension. -/
theorem C6_counterexample :
    (deriveFileName (some txtFile) = "notes.txt" ∧
      deriveFileName (some txtFile) ≠ "document.doc") ∧
    (deriveFileName (some doublePdfFile) = "a.doc.pdf" ∧
      deriveFileName (some doublePdfFile) ≠ "a.pdf.doc") :=
  ⟨⟨rfl, by decide⟩, ⟨rfl, by decide⟩⟩

/-- C6 (amended): `deriveFileName` replaces the first occurrence of the
substring `".pdf"` in the source name by `".doc"`; when the name is absent
or empty the result is the default `"document.doc"`; a non-empty name with
no `".pdf"` occurrence is returned unchanged. -/
theorem C6_deriveFileName_first_occurrence (f : SourceFile) :
    deriveFileName none = "document.doc"
    ∧ (f.name = "" → deriveFileName (some f) = "document.doc")
    ∧ ((∀ k, k < f.name.data.length →
          List.isPrefixOf ".pdf".data (f.name.data.drop k) = false) →
        f.name ≠ "" → deriveFileName (some f) = f.name)
    ∧ (∀ a b : List Char, f.name.data = a ++ ".pdf".data ++ b →
        (∀ k, k < a.length →
          List.isPrefixOf ".pdf".data (f.name.data.drop k) = false) →
        deriveFileName (some f) = String.mk (a ++ ".doc".data ++ b)) := by
  refine ⟨rfl, ?_, ?_, ?_⟩
  · intro h
    have hrep : jsReplace f.name ".pdf" ".doc" = "" := by
      rw [h]; rfl
    simp [deriveFileName, hrep]
  · intro hk hne
    have hrep : jsReplace f.name ".pdf" ".doc" = f.name := by
      unfold jsReplace
      rw [replaceFirstChars_no_match _ _ _ hk]
    simp [deriveFileName, hrep, hne]
  · intro a b hsplit hk
    have hpat : (".pdf".data : List Char) ≠ [] := by decide
    have hk2 : ∀ k, k < a.length →
        List.isPrefixOf ".pdf".data ((a ++ ".pdf".data ++ b).drop k) = false := by
      intro k hkk
      have := hk k hkk
      rwa [hsplit] at this
    have hrep : jsReplace f.name ".pdf" ".doc" =
        String.mk (a ++ ".doc".data ++ b) := by
      unfold jsReplace
      rw [hsplit, replaceFirstChars_match _ _ hpat a b hk2]
    have hne : String.mk (a ++ ".doc".data ++ b) ≠ "" := by
      intro hEq
      have hlist : a ++ ".doc".data ++ b = ([] : List Char) :=
        congrArg String.data hEq
      simp at hlist
    show (if jsReplace f.name ".pdf" ".doc" = "" then "document.doc"
      else jsReplace f.name ".pdf" ".doc") = String.mk (a ++ ".doc".data ++ b)
    rw [hrep, if_neg hne]

/-- Witness for C6 (amended) at concrete names. -/
theorem C6_deriveFileName_first_occurrence_witness :
    deriveFileName none = "document.doc"
    ∧ deriveFileName (some emptyNameFile) = "document.doc"
    ∧ deriveFileName (some txtFile) = "notes.txt"
    ∧ deriveFileName (some doublePdfFile) =
        String.mk ("a".data ++ ".doc".data ++ ".pdf".data) :=
  ⟨(C6_deriveFileName_first_occurrence pdfFile).1,
   (C6_deriveFileName_first_occurrence emptyNameFile).2.1 rfl,
   (C6_deriveFileName_first_occurrence txtFile).2.2.1 (by decide) (by decide),
   (C6_deriveFileName_first_occurrence doublePdfFile).2.2.2 "a".data ".pdf".data
     (by decide) (by decide)⟩

/-- C8: `handleFileChange` rejects every file whose MIME type is not
`application/pdf`, leaving the stored file unset and setting the exact
message, and accepts and stores every `application/pdf` file. -/
theorem C8_pdf_mime_gate (s : AppState) (f : SourceFile) :
    (f.type = "application/pdf" →
      handleFileChange (some f) s =
        { s with file := some f, error := none, result := none })
    ∧ (f.type ≠ "application/pdf" →
      (handleFileChange (some f) s).file = none
      ∧ (handleFileChange (some f) s).error =
          some "Please select a valid PDF file.")
    ∧ ((handleFileChange none s).file = none
      ∧ (handleFileChange none s).error =
          some "Please select a valid PDF file.") := by
  refine ⟨fun h => ?_, fun h => ?_, ?_⟩
  · simp [handleFileChange, h]
  · simp [handleFileChange, h]
  · simp [handleFileChange]

/-- Witness for C8 at a PDF and a text file. -/
theorem C8_pdf_mime_gate_witness :
    handleFileChange (some pdfFile) st0 =
      { st0 with file := some pdfFile, error := none, result := none }
    ∧ (handleFileChange (some txtFile) st0).file = none
    ∧ (handleFileChange (some txtFile) st0).error =
        some "Please select a valid PDF file." :=
  ⟨(C8_pdf_mime_gate st0 pdfFile).1 rfl,
   ((C8_pdf_mime_gate st0 txtFile).2.1 (by decide)).1,
   ((C8_pdf_mime_gate st0 txtFile).2.1 (by decide)).2⟩

/-- C9: invoking the conversion with no file selected sets the error to
exactly "Please select a file first." and returns at once — no encoder
call, no model call, every other state field unchanged. -/
theorem C9_no_file_early_return (encode : SourceFile → Except String Attachment)
    (gen : GenRequest → Except String (Option String)) (s : AppState)
    (h : s.file = none) :
    handleConvert encode gen s =
      ({ s with error := some "Please select a file first." }, []) := by
  simp [handleConvert, h]

/-- Witness for C9 at the idle state. -/
theorem C9_no_file_early_return_witness :
    handleConvert encodeOk (genConst "DOC") st0 =
      ({ st0 with error := some "Please select a file first." }, []) :=
  C9_no_file_early_return encodeOk (genConst "DOC") st0 rfl

/-- C10: accepting a valid PDF clears both the previous error and the
previous result; rejecting a non-PDF selection sets the error and unsets
the file but leaves the previous result untouched. -/
theorem C10_selection_frame (s : AppState) (f : SourceFile) :
    (f.type = "application/pdf" →
      (handleFileChange (some f) s).error = none
      ∧ (handleFileChange (some f) s).result = none)
    ∧ (f.type ≠ "application/pdf" →
      (handleFileChange (some f) s).result = s.result
      ∧ (handleFileChange (some f) s).file = none
      ∧ (handleFileChange (some f) s).error =
          some "Please select a valid PDF file.") := by
  refine ⟨fun h => ?_, fun h => ?_⟩
  · simp [handleFileChange, h]
  · simp [handleFileChange, h]

/-- Witness for C10: a state holding an old error and result. -/
theorem C10_selection_frame_witness :
    ((handleFileChange (some pdfFile)
        { st0 with error := some "old", result := some "OLD" }).error = none
      ∧ (handleFileChange (some pdfFile)
          { st0 with error := some "old", result := some "OLD" }).result = none)
    ∧ (handleFileChange (some txtFile)
        { st0 with error := some "old", result := some "OLD" }).result =
        ({ st0 with error := some "old", result := some "OLD" } : AppState).result :=
  ⟨(C10_selection_frame { st0 with error := some "old", result := some "OLD" }
      pdfFile).1 rfl,
   ((C10_selection_frame { st0 with error := some "old", result := some "OLD" }
      txtFile).2 (by decide)).1⟩

/-- A leading encoder event is recorded as one encoder invocation. -/
theorem encodeEvents_cons_encode (f : SourceFile) (tr : List Event) :
    encodeEvents (Event.encodeEv f :: tr) = f :: encodeEvents tr := by
  simp [encodeEvents, List.filterMap_cons]

/-- C1: whenever a run stores a final result, that result is exactly the
text returned by the third (Polish) stage call — the last of exactly three
model calls — with nothing applied in between. -/
theorem C1_final_result_is_stage3_text
    (encode : SourceFile → Except String Attachment)
    (gen : GenRequest → Except String (Option String))
    (s : AppState) (f : SourceFile) (r : String)
    (hf : s.file = some f)
    (hres : (handleConvert encode gen s).1.result = some r) :
    ∃ fp m1 m2, encode f = Except.ok fp
      ∧ genCalls (handleConvert encode gen s).2 =
          [mkReq1 fp, mkReq2 fp m1, mkReq3 fp m2]
      ∧ gen (mkReq3 fp m2) = Except.ok (some r) := by
  cases he : encode f with
  | error e => simp [handleConvert, hf, convertBody, he] at hres
  | ok fp =>
    have hbody : convertBody encode gen f = runPipeline gen fp := by
      simp [convertBody, he]
    cases hout : (runPipeline gen fp).1 with
    | error e => simp [handleConvert, hf, hbody, hout] at hres
    | ok fr =>
      have hfr : fr = r := by
        simpa [handleConvert, hf, hbody, hout] using hres
      obtain ⟨m1, m2, h1, hm1, h2, hm2, h3, hrne⟩ :=
        runPipeline_ok_elim gen fp fr hout
      have htr := runPipeline_success gen fp m1 m2 fr h1 hm1 h2 hm2 h3 hrne
      refine ⟨fp, m1, m2, rfl, ?_, hfr ▸ h3⟩
      have htr2 : (runPipeline gen fp).2 =
          [mkReq1 fp, mkReq2 fp m1, mkReq3 fp m2] := by rw [htr]
      simp [handleConvert, hf, hbody, htr2, genCalls_cons_encode,
        genCalls, List.filterMap_cons]

/-- Witness for C1 with a model answering "DOC" at every stage. -/
theorem C1_final_result_is_stage3_text_witness :
    ∃ fp m1 m2, encodeOk pdfFile = Except.ok fp
      ∧ genCalls (handleConvert encodeOk (genConst "DOC") stWithFile).2 =
          [mkReq1 fp, mkReq2 fp m1, mkReq3 fp m2]
      ∧ genConst "DOC" (mkReq3 fp m2) = Except.ok (some "DOC") :=
  C1_final_result_is_stage3_text encodeOk (genConst "DOC") stWithFile pdfFile
    "DOC" rfl rfl

/-- C2: a stage answering empty or absent text makes the run fail with the
step's message, stops the model calls at that stage, and stores no result. -/
theorem C2_stage_failure_aborts
    (encode : SourceFile → Except String Attachment)
    (gen : GenRequest → Except String (Option String))
    (s : AppState) (f : SourceFile) (fp : Attachment)
    (hf : s.file = some f) (he : encode f = Except.ok fp) :
    ((gen (mkReq1 fp) = Except.ok none ∨ gen (mkReq1 fp) = Except.ok (some "")) →
      (handleConvert encode gen s).1.error =
        some ("Error processing file: " ++ step1Msg)
      ∧ (handleConvert encode gen s).1.result = none
      ∧ genCalls (handleConvert encode gen s).2 = [mkReq1 fp])
    ∧ (∀ m1, gen (mkReq1 fp) = Except.ok (some m1) → m1 ≠ "" →
      (gen (mkReq2 fp m1) = Except.ok none ∨
        gen (mkReq2 fp m1) = Except.ok (some "")) →
      (handleConvert encode gen s).1.error =
        some ("Error processing file: " ++ step2Msg)
      ∧ (handleConvert encode gen s).1.result = none
      ∧ genCalls (handleConvert encode gen s).2 = [mkReq1 fp, mkReq2 fp m1])
    ∧ (∀ m1 m2, gen (mkReq1 fp) = Except.ok (some m1) → m1 ≠ "" →
      gen (mkReq2 fp m1) = Except.ok (some m2) → m2 ≠ "" →
      (gen (mkReq3 fp m2) = Except.ok none ∨
        gen (mkReq3 fp m2) = Except.ok (some "")) →
      (handleConvert encode gen s).1.error =
        some ("Error processing file: " ++ step3Msg)
      ∧ (handleConvert encode gen s).1.result = none
      ∧ genCalls (handleConvert encode gen s).2 =
          [mkReq1 fp, mkReq2 fp m1, mkReq3 fp m2]) := by
  have hbody : convertBody encode gen f = runPipeline gen fp := by
    simp [convertBody, he]
  refine ⟨fun h => ?_, fun m1 h1 hm1 h2 => ?_,
    fun m1 m2 h1 hm1 h2 hm2 h3 => ?_⟩
  · have hrp := runPipeline_stage1_empty gen fp h
    simp [handleConvert, hf, hbody, hrp, genCalls_cons_encode, genCalls,
      List.filterMap_cons]
  · have hrp := runPipeline_stage2_empty gen fp m1 h1 hm1 h2
    simp [handleConvert, hf, hbody, hrp, genCalls_cons_encode, genCalls,
      List.filterMap_cons]
  · have hrp := runPipeline_stage3_empty gen fp m1 m2 h1 hm1 h2 hm2 h3
    simp [handleConvert, hf, hbody, hrp, genCalls_cons_encode, genCalls,
      List.filterMap_cons]

/-- Witness for C2: runs failing at steps 1, 2 and 3 respectively. -/
theorem C2_stage_failure_aborts_witness :
    ((handleConvert encodeOk genEmpty stWithFile).1.result = none
      ∧ genCalls (handleConvert encodeOk genEmpty stWithFile).2 =
          [mkReq1 attach0])
    ∧ genCalls (handleConvert encodeOk genFailAt2 stWithFile).2 =
        [mkReq1 attach0, mkReq2 attach0 "M1"]
    ∧ genCalls (handleConvert encodeOk genFailAt3 stWithFile).2 =
        [mkReq1 attach0, mkReq2 attach0 "M1", mkReq3 attach0 "M2"] := by
  refine ⟨?_, ?_, ?_⟩
  · have h := (C2_stage_failure_aborts encodeOk genEmpty stWithFile pdfFile
      attach0 rfl rfl).1 (Or.inr rfl)
    exact ⟨h.2.1, h.2.2⟩
  · exact ((C2_stage_failure_aborts encodeOk genFailAt2 stWithFile pdfFile
      attach0 rfl rfl).2.1 "M1" rfl (by decide) (Or.inr rfl)).2.2
  · exact ((C2_stage_failure_aborts encodeOk genFailAt3 stWithFile pdfFile
      attach0 rfl rfl).2.2 "M1" "M2" rfl (by decide) rfl (by decide)
      (Or.inr rfl)).2.2

/-- C3 counterexample: when stage 1 returns empty text the pipeline's
failure message is "Step 1 (Initial Conversion) failed or returned empty.",
not the claimed "Step 1 failed or returned empty.". -/
theorem C3_counterexample :
    (runPipeline genEmpty attach0).1 =
      Except.error "Step 1 (Initial Conversion) failed or returned empty."
    ∧ "Step 1 (Initial Conversion) failed or returned empty." ≠
        "Step 1 failed or returned empty." :=
  ⟨rfl, by decide⟩

/-- C3 (amended): an empty or absent stage answer fails the pipeline with
exactly "Step 1 (Initial Conversion) failed or returned empty.",
"Step 2 (Verification) failed or returned empty." or
"Step 3 (Final Polish) failed or returned empty." respectively. -/
theorem C3_step_messages (gen : GenRequest → Except String (Option String))
    (fp : Attachment) :
    ((gen (mkReq1 fp) = Except.ok none ∨ gen (mkReq1 fp) = Except.ok (some "")) →
      (runPipeline gen fp).1 =
        Except.error "Step 1 (Initial Conversion) failed or returned empty.")
    ∧ (∀ m1, gen (mkReq1 fp) = Except.ok (some m1) → m1 ≠ "" →
      (gen (mkReq2 fp m1) = Except.ok none ∨
        gen (mkReq2 fp m1) = Except.ok (some "")) →
      (runPipeline gen fp).1 =
        Except.error "Step 2 (Verification) failed or returned empty.")
    ∧ (∀ m1 m2, gen (mkReq1 fp) = Except.ok (some m1) → m1 ≠ "" →
      gen (mkReq2 fp m1) = Except.ok (some m2) → m2 ≠ "" →
      (gen (mkReq3 fp m2) = Except.ok none ∨
        gen (mkReq3 fp m2) = Except.ok (some "")) →
      (runPipeline gen fp).1 =
        Except.error "Step 3 (Final Polish) failed or returned empty.") := by
  refine ⟨fun h => ?_, fun m1 h1 hm1 h2 => ?_,
    fun m1 m2 h1 hm1 h2 hm2 h3 => ?_⟩
  · rw [runPipeline_stage1_empty gen fp h]
    rfl
  · rw [runPipeline_stage2_empty gen fp m1 h1 hm1 h2]
    rfl
  · rw [runPipeline_stage3_empty gen fp m1 m2 h1 hm1 h2 hm2 h3]
    rfl

/-- Witness for C3 (amended): one run failing at each step. -/
theorem C3_step_messages_witness :
    (runPipeline genEmpty attach0).1 =
      Except.error "Step 1 (Initial Conversion) failed or returned empty."
    ∧ (runPipeline genFailAt2 attach0).1 =
        Except.error "Step 2 (Verification) failed or returned empty."
    ∧ (runPipeline genFailAt3 attach0).1 =
        Except.error "Step 3 (Final Polish) failed or returned empty." :=
  ⟨(C3_step_messages genEmpty attach0).1 (Or.inr rfl),
   (C3_step_messages genFailAt2 attach0).2.1 "M1" rfl (by decide) (Or.inr rfl),
   (C3_step_messages genFailAt3 attach0).2.2 "M1" "M2" rfl (by decide) rfl
     (by decide) (Or.inr rfl)⟩

/-- C4: stage 1's payload carries only the prompt and the attachment; a
second call's payload carries stage 1's returned text under the verify tag;
a third call's payload carries stage 2's returned text under the polish
tag. -/
theorem C4_stage_payload_threading
    (gen : GenRequest → Except String (Option String)) (fp : Attachment) :
    ((runPipeline gen fp).2.head? = some (mkReq1 fp)
    ∧ (mkReq1 fp).parts = [GenPart.text promptStep1, GenPart.inlineData fp])
    ∧ (∀ q, (runPipeline gen fp).2.get? 1 = some q →
        ∃ m1, gen (mkReq1 fp) = Except.ok (some m1) ∧
          q.parts = [GenPart.text promptStep2, GenPart.inlineData fp,
            GenPart.text (verifyTag ++ m1)])
    ∧ (∀ q, (runPipeline gen fp).2.get? 2 = some q →
        ∃ q2 m2, (runPipeline gen fp).2.get? 1 = some q2 ∧
          gen q2 = Except.ok (some m2) ∧
          q.parts = [GenPart.text promptStep3, GenPart.inlineData fp,
            GenPart.text (polishTag ++ m2)]) := by
  rcases runPipeline_trace_shape gen fp with htr | ⟨m1, h1, hm1, htr⟩ |
    ⟨m1, m2, h1, hm1, h2, hm2, htr⟩
  · refine ⟨⟨by simp [htr], rfl⟩, fun q hq => ?_, fun q hq => ?_⟩ <;>
      simp [htr] at hq
  · refine ⟨⟨by simp [htr], rfl⟩, fun q hq => ?_, fun q hq => ?_⟩
    · simp [htr] at hq
      subst hq
      exact ⟨m1, h1, rfl⟩
    · simp [htr] at hq
  · refine ⟨⟨by simp [htr], rfl⟩, fun q hq => ?_, fun q hq => ?_⟩
    · simp [htr] at hq
      subst hq
      exact ⟨m1, h1, rfl⟩
    · simp [htr] at hq
      subst hq
      exact ⟨mkReq2 fp m1, m2, by simp [htr], h2, rfl⟩

/-- Witness for C4 with a model answering ONE, TWO, THREE per stage. -/
theorem C4_stage_payload_threading_witness :
    (runPipeline genStages attach0).2.head? = some (mkReq1 attach0)
    ∧ (∃ m1, genStages (mkReq1 attach0) = Except.ok (some m1) ∧
        (mkReq2 attach0 "ONE").parts = [GenPart.text promptStep2,
          GenPart.inlineData attach0, GenPart.text (verifyTag ++ m1)])
    ∧ (∃ q2 m2, (runPipeline genStages attach0).2.get? 1 = some q2 ∧
        genStages q2 = Except.ok (some m2) ∧
        (mkReq3 attach0 "TWO").parts = [GenPart.text promptStep3,
          GenPart.inlineData attach0, GenPart.text (polishTag ++ m2)]) :=
  ⟨(C4_stage_payload_threading genStages attach0).1.1,
   (C4_stage_payload_threading genStages attach0).2.1
     (mkReq2 attach0 "ONE") rfl,
   (C4_stage_payload_threading genStages attach0).2.2
     (mkReq3 attach0 "TWO") rfl⟩

/-- C5: a run with an accepted file encodes the attachment exactly once, at
the start, and every model payload of the run carries exactly that one
attachment value. -/
theorem C5_single_attachment
    (encode : SourceFile → Except String Attachment)
    (gen : GenRequest → Except String (Option String))
    (s : AppState) (f : SourceFile) (fp : Attachment)
    (hf : s.file = some f) (he : encode f = Except.ok fp) :
    (handleConvert encode gen s).2 =
      Event.encodeEv f :: ((runPipeline gen fp).2.map Event.genEv)
    ∧ encodeEvents (handleConvert encode gen s).2 = [f]
    ∧ ∀ q ∈ genCalls (handleConvert encode gen s).2,
        attachmentsOf q = [fp] := by
  have hbody : convertBody encode gen f = runPipeline gen fp := by
    simp [convertBody, he]
  have htrace : (handleConvert encode gen s).2 =
      Event.encodeEv f :: ((runPipeline gen fp).2.map Event.genEv) := by
    simp [handleConvert, hf, hbody]
  refine ⟨htrace, ?_, ?_⟩
  · rw [htrace, encodeEvents_cons_encode, encodeEvents_map_gen]
  · rw [htrace, genCalls_cons_encode, genCalls_map_gen]
    rcases runPipeline_trace_shape gen fp with htr | ⟨m1, h1, hm1, htr⟩ |
      ⟨m1, m2, h1, hm1, h2, hm2, htr⟩ <;> rw [htr] <;> intro q hq <;>
      simp at hq
    · subst hq; rfl
    · rcases hq with rfl | rfl <;> rfl
    · rcases hq with rfl | rfl | rfl <;> rfl

/-- Witness for C5 on a concrete successful run. -/
theorem C5_single_attachment_witness :
    (handleConvert encodeOk genStages stWithFile).2 =
      Event.encodeEv pdfFile ::
        ((runPipeline genStages attach0).2.map Event.genEv)
    ∧ encodeEvents (handleConvert encodeOk genStages stWithFile).2 = [pdfFile]
    ∧ attachmentsOf (mkReq2 attach0 "ONE") = [attach0] := by
  have h := C5_single_attachment encodeOk genStages stWithFile pdfFile attach0
    rfl rfl
  refine ⟨h.1, h.2.1, h.2.2 (mkReq2 attach0 "ONE") ?_⟩
  rw [show genCalls (handleConvert encodeOk genStages stWithFile).2 =
    [mkReq1 attach0, mkReq2 attach0 "ONE", mkReq3 attach0 "TWO"] from rfl]
  exact List.mem_cons_of_mem _ (List.mem_cons_self _ _)

/-- C7: any failure thrown by the encoder or by a pipeline stage reaches the
single catch handler, which stores "Error processing file: " followed by the
failure's message, keeps the result absent, and leaves the run idle and
retryable (loading cleared, file still selected). -/
theorem C7_failure_to_top_handler
    (encode : SourceFile → Except String Attachment)
    (gen : GenRequest → Except String (Option String))
    (s : AppState) (f : SourceFile) (e : String)
    (hf : s.file = some f)
    (hfail : (convertBody encode gen f).1 = Except.error e) :
    (handleConvert encode gen s).1.error =
      some ("Error processing file: " ++ e)
    ∧ (handleConvert encode gen s).1.result = none
    ∧ (handleConvert encode gen s).1.isLoading = false
    ∧ (handleConvert encode gen s).1.loadingMessage = ""
    ∧ (handleConvert encode gen s).1.file = some f := by
  simp [handleConvert, hf, hfail]

/-- Witness for C7: a throwing transport and a throwing encoder. -/
theorem C7_failure_to_top_handler_witness :
    ((handleConvert encodeOk genThrow stWithFile).1.error =
        some ("Error processing file: " ++ "network down")
      ∧ (handleConvert encodeOk genThrow stWithFile).1.result = none
      ∧ (handleConvert encodeOk genThrow stWithFile).1.isLoading = false
      ∧ (handleConvert encodeOk genThrow stWithFile).1.loadingMessage = ""
      ∧ (handleConvert encodeOk genThrow stWithFile).1.file = some pdfFile)
    ∧ (handleConvert encodeFail (genConst "DOC") stWithFile).1.error =
        some ("Error processing file: " ++ "read failed") :=
  ⟨C7_failure_to_top_handler encodeOk genThrow stWithFile pdfFile
      "network down" rfl rfl,
   (C7_failure_to_top_handler encodeFail (genConst "DOC") stWithFile pdfFile
      "read failed" rfl rfl).1⟩
